import Mathlib

/-!
Shallow embedding of the darkbird core storage engine
(`src/blackbird/storage.rs`), with the Router fan-out semantics modelled
from the specification (router.rs is not part of the sources given).

Modelling choices:
* `DashMap<Key, Document>` is modelled as an association list with unique
  keys; `engineInsert` / `engineRemove` / `engineGet` are the semantics of
  `DashMap::insert`, `DashMap::remove` and `DashMap::get`.
* The WAL (`wal_session: Option<Session>`) is modelled by a `Bool` flag plus
  a ghost `log` field recording the sequence of records whose append was
  acknowledged.  `bincode` serialisation is assumed faithful, so the log
  stores decoded `RQuery` values rather than byte strings.
* The outcome of the environment at each suspension point (the WAL append
  acknowledgement and the Router channel admission) is passed as an explicit
  argument (`appendErr : Option SessionResult`, `dispatchOk : Bool`), since
  in the source these are results returned by the service tasks.
* A subscriber `Sender` is identified by a numeric sink id.
* The Router channel is modelled by the ghost `router` field: the FIFO list
  of requests (`register` / `dispatch`) admitted to the Router, in order.
-/

namespace Darkbird

/-- Storage type from the `Options` bundle (`stype`). -/
inductive StorageType where
  | DiskCopies : StorageType
  | InMemoryOnly : StorageType
deriving DecidableEq

/-- Status results as used in `storage.rs` (`StatusResult::{LogErr, IoError, Err, End}`);
the payloads of the error variants are abstracted to numeric codes. -/
inductive StatusResult where
  | LogErr : Nat → StatusResult
  | IoError : Nat → StatusResult
  | Err : Nat → StatusResult
  | End : StatusResult
deriving DecidableEq

/-- Session-level results (`SessionResult`), as used by `storage.rs` and
`database.rs`. -/
inductive SessionResult where
  | Err : StatusResult → SessionResult
  | DataStoreNotFound : SessionResult
deriving DecidableEq

/-- The on-log mutation record (`RQuery` in `storage.rs`). -/
inductive RQuery (Key Document : Type) where
  | Insert : Key → Document → RQuery Key Document
  | Remove : Key → RQuery Key Document
deriving DecidableEq

/-- Events reported to subscribers (`Event` in `storage.rs`); `Subscribed`
carries the subscriber's sender handle, modelled by its sink id. -/
inductive Event (Key Document : Type) where
  | Query : RQuery Key Document → Event Key Document
  | Subscribed : Nat → Event Key Document
deriving DecidableEq

/-- Modelled from the spec: the Router (router.rs is not among the given
sources) accepts `register(sink)` and `dispatch(e)` requests over a single
FIFO channel, so they interleave deterministically. -/
inductive RouterReq (Key Document : Type) where
  | register : Nat → RouterReq Key Document
  | dispatch : Event Key Document → RouterReq Key Document
deriving DecidableEq

/-- Decidable equality of call results. -/
instance {E A : Type} [DecidableEq E] [DecidableEq A] :
    DecidableEq (Except E A) := fun a b =>
  match a, b with
  | Except.ok x, Except.ok y =>
      if h : x = y then isTrue (by rw [h]) else
        isFalse (fun hc => h (by cases hc; rfl))
  | Except.ok _, Except.error _ => isFalse (fun hc => Except.noConfusion hc)
  | Except.error _, Except.ok _ => isFalse (fun hc => Except.noConfusion hc)
  | Except.error x, Except.error y =>
      if h : x = y then isTrue (by rw [h]) else
        isFalse (fun hc => h (by cases hc; rfl))

variable {Key Document : Type}

/-- `DashMap::remove`: drop the entry for `k`, if any. -/
def engineRemove [DecidableEq Key] (m : List (Key × Document)) (k : Key) :
    List (Key × Document) :=
  m.filter (fun p => decide (p.1 ≠ k))

/-- `DashMap::insert`: replace any entry for `k` with `(k, d)`. -/
def engineInsert [DecidableEq Key] (m : List (Key × Document)) (k : Key)
    (d : Document) : List (Key × Document) :=
  engineRemove m k ++ [(k, d)]

/-- `DashMap::get`: the document stored under `k`, if any. -/
def engineGet [DecidableEq Key] (m : List (Key × Document)) (k : Key) :
    Option Document :=
  (m.find? (fun p => decide (p.1 = k))).map (fun p => p.2)

/-- The `Storage` struct of `storage.rs`: the in-memory engine, the presence
of a WAL session, and the ghost observables `log` (records acknowledged by
the WAL, in append order) and `router` (requests admitted to the Router
channel, in order). -/
structure Storage (Key Document : Type) where
  engine : List (Key × Document)
  wal_session : Bool
  log : List (RQuery Key Document)
  router : List (RouterReq Key Document)
deriving DecidableEq

/-- `Storage::open` with an empty (or absent) on-disk log: `DiskCopies`
opens a WAL session, `InMemoryOnly` does not (`wal_session: None`); the
engine starts empty either way. -/
def Storage.openEmpty (stype : StorageType) : Storage Key Document :=
  { engine := []
    wal_session := decide (stype = StorageType.DiskCopies)
    log := []
    router := [] }

/-- `Storage::lookup`. -/
def Storage.lookup [DecidableEq Key] (s : Storage Key Document) (k : Key) :
    Option Document :=
  engineGet s.engine k

/-- `Storage::insert`.  `appendErr` is the WAL append outcome (consulted only
when a WAL session exists), `dispatchOk` tells whether the Router channel
accepted the event (the source discards this result: `let _ = ...dispatch`).
Returns the call's result together with the post state. -/
def Storage.insert [DecidableEq Key] (s : Storage Key Document)
    (appendErr : Option SessionResult) (dispatchOk : Bool)
    (key : Key) (doc : Document) :
    Except SessionResult Unit × Storage Key Document :=
  let query := RQuery.Insert key doc
  if s.wal_session then
    match appendErr with
    | some e => (Except.error e, s)
    | none =>
      let s1 := { s with log := s.log ++ [query] }
      let s2 := { s1 with engine := engineInsert s1.engine key doc }
      let s3 := if dispatchOk then
          { s2 with router := s2.router ++ [RouterReq.dispatch (Event.Query query)] }
        else s2
      (Except.ok (), s3)
  else
    let s2 := { s with engine := engineInsert s.engine key doc }
    let s3 := if dispatchOk then
        { s2 with router := s2.router ++ [RouterReq.dispatch (Event.Query query)] }
      else s2
    (Except.ok (), s3)

/-- `Storage::remove`.  Faithful to the source: the in-memory removal
(`self.engine.remove(&key)`, line 138) happens first, before the WAL branch,
so it takes effect even when the subsequent append fails. -/
def Storage.remove [DecidableEq Key] (s : Storage Key Document)
    (appendErr : Option SessionResult) (dispatchOk : Bool)
    (key : Key) :
    Except SessionResult Unit × Storage Key Document :=
  let s0 := { s with engine := engineRemove s.engine key }
  let query : RQuery Key Document := RQuery.Remove key
  if s0.wal_session then
    match appendErr with
    | some e => (Except.error e, s0)
    | none =>
      let s1 := { s0 with log := s0.log ++ [query] }
      let s2 := if dispatchOk then
          { s1 with router := s1.router ++ [RouterReq.dispatch (Event.Query query)] }
        else s1
      (Except.ok (), s2)
  else
    let s2 := if dispatchOk then
        { s0 with router := s0.router ++ [RouterReq.dispatch (Event.Query query)] }
      else s0
    (Except.ok (), s2)

/-- `Storage::subscribe`: dispatch `Subscribed(sender)` to the Router
(result discarded), then register the sender.  `dispatchOk` / `registerErr`
are the Router channel outcomes of the two submissions. -/
def Storage.subscribe (s : Storage Key Document) (dispatchOk : Bool)
    (registerErr : Option SessionResult) (sender : Nat) :
    Except SessionResult Unit × Storage Key Document :=
  let s1 := if dispatchOk then
      { s with router := s.router ++ [RouterReq.dispatch (Event.Subscribed sender)] }
    else s
  match registerErr with
  | some e => (Except.error e, s1)
  | none => (Except.ok (), { s1 with router := s1.router ++ [RouterReq.register sender] })

/-- The per-record action of the recovery loader (`Storage::loader`, the
match on the decoded query): apply the record to the in-memory engine
directly. -/
def loaderApply [DecidableEq Key] (s : Storage Key Document) :
    RQuery Key Document → Storage Key Document
  | RQuery.Insert key doc => { s with engine := engineInsert s.engine key doc }
  | RQuery.Remove key => { s with engine := engineRemove s.engine key }

/-- The recovery loader replaying a list of already-decoded records in
order. -/
def loaderRun [DecidableEq Key] (s : Storage Key Document)
    (records : List (RQuery Key Document)) : Storage Key Document :=
  records.foldl loaderApply s

/-- The loader over raw log lines: `some q` is a line that reads and decodes
to `q`; `none` is a line whose read or decode fails.  The source unwraps
both results (`bincode::deserialize(&qline.unwrap()).unwrap()`,
storage.rs line 229), so a failing line makes the loader task panic,
modelled as the `none` outcome of the whole run. -/
def loaderLines [DecidableEq Key] (s : Storage Key Document) :
    List (Option (RQuery Key Document)) → Option (Storage Key Document)
  | [] => some s
  | none :: _ => none
  | some q :: rest => loaderLines (loaderApply s q) rest

/-- Modelled from the spec: the Router task keeps the list of registered
sinks and, on `dispatch(e)`, enqueues `e` to every currently registered sink.
`deliveredFrom sink registered reqs` is the stream of events delivered to
`sink` while processing `reqs`, given whether `sink` is already registered. -/
def deliveredFrom (sink : Nat) (registered : Bool) :
    List (RouterReq Key Document) → List (Event Key Document)
  | [] => []
  | RouterReq.register s :: rest =>
      deliveredFrom sink (registered || decide (s = sink)) rest
  | RouterReq.dispatch e :: rest =>
      if registered then e :: deliveredFrom sink registered rest
      else deliveredFrom sink registered rest

/-- The full stream of events delivered to `sink` by a Router processing
`reqs` from a state where `sink` is not yet registered. -/
def deliveredTo (sink : Nat) (reqs : List (RouterReq Key Document)) :
    List (Event Key Document) :=
  deliveredFrom sink false reqs

/-- Whether some request in `reqs` registers `sink`. -/
def registersSink (reqs : List (RouterReq Key Document)) (sink : Nat) : Bool :=
  reqs.any (fun r =>
    match r with
    | RouterReq.register s => decide (s = sink)
    | RouterReq.dispatch _ => false)

/-- All events dispatched in `reqs`, in order. -/
def dispatchedEvents : List (RouterReq Key Document) → List (Event Key Document)
  | [] => []
  | RouterReq.register _ :: rest => dispatchedEvents rest
  | RouterReq.dispatch e :: rest => e :: dispatchedEvents rest

/-- A live mutation call: `insert` or `remove`. -/
inductive Op (Key Document : Type) where
  | insert : Key → Document → Op Key Document
  | remove : Key → Op Key Document
deriving DecidableEq

/-- One live step: the operation together with the environment outcomes of
its WAL append and Router dispatch. -/
structure Step (Key Document : Type) where
  op : Op Key Document
  appendErr : Option SessionResult
  dispatchOk : Bool
deriving DecidableEq

/-- Execute one live step. -/
def Storage.applyStep [DecidableEq Key] (s : Storage Key Document)
    (st : Step Key Document) :
    Except SessionResult Unit × Storage Key Document :=
  match st.op with
  | Op.insert k d => s.insert st.appendErr st.dispatchOk k d
  | Op.remove k => s.remove st.appendErr st.dispatchOk k

/-- Execute a sequence of live steps, returning the final state. -/
def Storage.run [DecidableEq Key] (s : Storage Key Document) :
    List (Step Key Document) → Storage Key Document
  | [] => s
  | st :: rest => ((s.applyStep st).2).run rest

/-- The results of a sequence of live steps, in order. -/
def Storage.runResults [DecidableEq Key] (s : Storage Key Document) :
    List (Step Key Document) → List (Except SessionResult Unit)
  | [] => []
  | st :: rest => (s.applyStep st).1 :: ((s.applyStep st).2).runResults rest

/-- The on-log record of a step's operation. -/
def Step.record (st : Step Key Document) : RQuery Key Document :=
  match st.op with
  | Op.insert k d => RQuery.Insert k d
  | Op.remove k => RQuery.Remove k

/-- A populated concrete state used by counterexamples and witnesses. -/
def c1State : Storage Nat Nat :=
  { engine := [(1, 10)], wal_session := true, log := [], router := [] }

/-- Concrete router request trace: open in-memory, subscribe sink 0, then
insert key 1 with document 2. -/
def c2Router : List (RouterReq Nat Nat) :=
  ((((Storage.openEmpty StorageType.InMemoryOnly :
      Storage Nat Nat).subscribe true none 0).2).insert none true 1 2).2.router

/-- Concrete live steps (all appends succeed) used by the round-trip
witness. -/
def c4Steps : List (Step Nat Nat) :=
  [{ op := Op.insert 1 2, appendErr := none, dispatchOk := true },
   { op := Op.insert 3 4, appendErr := none, dispatchOk := false },
   { op := Op.remove 1, appendErr := none, dispatchOk := true }]

theorem engineGet_engineRemove [DecidableEq Key] (m : List (Key × Document))
    (k : Key) : engineGet (engineRemove m k) k = none := by
  induction m with
  | nil => rfl
  | cons p t ih =>
    by_cases h : p.1 = k <;>
      simp [engineRemove, engineGet, List.filter_cons, List.find?, h]

theorem engineGet_engineInsert [DecidableEq Key] (m : List (Key × Document))
    (k : Key) (d : Document) : engineGet (engineInsert m k d) k = some d := by
  induction m with
  | nil => simp [engineInsert, engineRemove, engineGet, List.find?]
  | cons p t ih =>
    by_cases h : p.1 = k <;>
      simp [engineInsert, engineRemove, engineGet, List.filter_cons,
        List.find?, h]

theorem insert_result_no_wal [DecidableEq Key] (s : Storage Key Document)
    (ae : Option SessionResult) (dk : Bool) (k : Key) (d : Document)
    (hw : s.wal_session = false) :
    (s.insert ae dk k d).1 = Except.ok () := by
  cases ae <;> cases dk <;> simp [Storage.insert, hw]

theorem remove_result_no_wal [DecidableEq Key] (s : Storage Key Document)
    (ae : Option SessionResult) (dk : Bool) (k : Key)
    (hw : s.wal_session = false) :
    (s.remove ae dk k).1 = Except.ok () := by
  cases ae <;> cases dk <;> simp [Storage.remove, hw]

theorem insert_wal_session [DecidableEq Key] (s : Storage Key Document)
    (ae : Option SessionResult) (dk : Bool) (k : Key) (d : Document) :
    (s.insert ae dk k d).2.wal_session = s.wal_session := by
  cases hw : s.wal_session <;> cases ae <;> cases dk <;>
    simp [Storage.insert, hw]

theorem remove_wal_session [DecidableEq Key] (s : Storage Key Document)
    (ae : Option SessionResult) (dk : Bool) (k : Key) :
    (s.remove ae dk k).2.wal_session = s.wal_session := by
  cases hw : s.wal_session <;> cases ae <;> cases dk <;>
    simp [Storage.remove, hw]

theorem applyStep_wal_session [DecidableEq Key] (s : Storage Key Document)
    (st : Step Key Document) :
    (s.applyStep st).2.wal_session = s.wal_session := by
  rcases st with ⟨op, ae, dk⟩
  cases op with
  | insert k d => exact insert_wal_session s ae dk k d
  | remove k => exact remove_wal_session s ae dk k

theorem runResults_no_wal [DecidableEq Key] (s : Storage Key Document)
    (steps : List (Step Key Document)) (hw : s.wal_session = false) :
    s.runResults steps = steps.map (fun _ => Except.ok ()) := by
  induction steps generalizing s with
  | nil => rfl
  | cons st rest ih =>
    have hw2 : (s.applyStep st).2.wal_session = false := by
      rw [applyStep_wal_session]; exact hw
    have hr : (s.applyStep st).1 = Except.ok () := by
      rcases st with ⟨op, ae, dk⟩
      cases op with
      | insert k d => exact insert_result_no_wal s ae dk k d hw
      | remove k => exact remove_result_no_wal s ae dk k hw
    simp [Storage.runResults, hr, ih _ hw2]

/-- C5: if `insert(k, d)` returns success then an immediate `lookup(k)` on
the resulting state returns `d`. -/
theorem C5_insert_then_lookup [DecidableEq Key] (s : Storage Key Document)
    (ae : Option SessionResult) (dk : Bool) (k : Key) (d : Document)
    (h : (s.insert ae dk k d).1 = Except.ok ()) :
    (s.insert ae dk k d).2.lookup k = some d := by
  cases hw : s.wal_session with
  | false =>
    cases dk <;>
      simp [Storage.insert, hw, Storage.lookup, engineGet_engineInsert]
  | true =>
    cases ae with
    | some e => simp [Storage.insert, hw] at h
    | none =>
      cases dk <;>
        simp [Storage.insert, hw, Storage.lookup, engineGet_engineInsert]

/-- C5 witness: a concrete successful insert followed by a lookup. -/
theorem C5_witness :
    ((Storage.openEmpty StorageType.DiskCopies :
        Storage Nat Nat).insert none true 1 2).1 = Except.ok ()
    ∧ ((Storage.openEmpty StorageType.DiskCopies :
        Storage Nat Nat).insert none true 1 2).2.lookup 1 = some 2 :=
  ⟨by decide, C5_insert_then_lookup _ none true 1 2 (by decide)⟩

/-- C6: if `remove(k)` returns success then an immediate `lookup(k)` on the
resulting state returns none. -/
theorem C6_remove_then_lookup [DecidableEq Key] (s : Storage Key Document)
    (ae : Option SessionResult) (dk : Bool) (k : Key)
    (h : (s.remove ae dk k).1 = Except.ok ()) :
    (s.remove ae dk k).2.lookup k = none := by
  cases hw : s.wal_session with
  | false =>
    cases dk <;>
      simp [Storage.remove, hw, Storage.lookup, engineGet_engineRemove]
  | true =>
    cases ae with
    | some e => simp [Storage.remove, hw] at h
    | none =>
      cases dk <;>
        simp [Storage.remove, hw, Storage.lookup, engineGet_engineRemove]

/-- C6 witness: a concrete successful remove followed by a lookup. -/
theorem C6_witness :
    (c1State.remove none true 1).1 = Except.ok ()
    ∧ (c1State.remove none true 1).2.lookup 1 = none :=
  ⟨by decide, C6_remove_then_lookup c1State none true 1 (by decide)⟩

/-- C7: the recovery loader only touches the in-memory engine — replaying
any record list leaves the log, the router request stream (hence every
subscriber stream) and the WAL flag unchanged. -/
theorem C7_loader_frame [DecidableEq Key] (s : Storage Key Document)
    (records : List (RQuery Key Document)) :
    (loaderRun s records).log = s.log
    ∧ (loaderRun s records).router = s.router
    ∧ (loaderRun s records).wal_session = s.wal_session := by
  induction records generalizing s with
  | nil => exact ⟨rfl, rfl, rfl⟩
  | cons q rest ih =>
    have h := ih (loaderApply s q)
    cases q <;> simpa [loaderRun, loaderApply] using h

/-- C8: a datastore opened `InMemoryOnly` has no WAL session, and every
`insert`/`remove` call in any run returns success, whatever the environment
outcomes are. -/
theorem C8_inmemory_always_ok [DecidableEq Key]
    (steps : List (Step Key Document)) :
    (Storage.openEmpty StorageType.InMemoryOnly :
        Storage Key Document).runResults steps
      = steps.map (fun _ => Except.ok ()) :=
  runResults_no_wal _ steps (by simp [Storage.openEmpty])

/-- C1 counterexample: in a state holding key 1 with a live WAL session, a
`remove 1` whose WAL append fails returns the error, yet the key is gone
from the in-memory map — the memory effect precedes the append. -/
theorem C1_counterexample :
    (c1State.remove (some (SessionResult.Err (StatusResult.IoError 0))) true 1).1
      = Except.error (SessionResult.Err (StatusResult.IoError 0))
    ∧ (c1State.remove (some (SessionResult.Err (StatusResult.IoError 0)))
        true 1).2.engine ≠ c1State.engine := by
  decide

/-- C1 (amended): with the WAL enabled, a failed append makes `insert`
return the error with the state completely untouched; `remove` also returns
the error with the log and router untouched, but the in-memory removal of
the key has already happened, because in the source it precedes the append. -/
theorem C1_amended [DecidableEq Key] (s : Storage Key Document)
    (e : SessionResult) (dk : Bool) (k : Key) (d : Document)
    (hw : s.wal_session = true) :
    s.insert (some e) dk k d = (Except.error e, s)
    ∧ s.remove (some e) dk k
        = (Except.error e, { s with engine := engineRemove s.engine k }) := by
  constructor <;> simp [Storage.insert, Storage.remove, hw]

/-- C1 witness: the amended statement evaluated at a concrete state. -/
theorem C1_witness :
    c1State.wal_session = true
    ∧ (c1State.insert (some SessionResult.DataStoreNotFound) true 1 20
        = (Except.error SessionResult.DataStoreNotFound, c1State)
      ∧ c1State.remove (some SessionResult.DataStoreNotFound) true 1
        = (Except.error SessionResult.DataStoreNotFound,
           { c1State with engine := engineRemove c1State.engine 1 })) :=
  ⟨rfl, C1_amended c1State SessionResult.DataStoreNotFound true 1 20 rfl⟩

/-- C9: removing a key absent from the primary map still returns success,
still appends a `Remove(k)` record to the log, and still dispatches the
`Query(Remove(k))` event to the Router. -/
theorem C9_remove_absent_key [DecidableEq Key] (s : Storage Key Document)
    (k : Key) (_habs : s.lookup k = none) (hw : s.wal_session = true) :
    (s.remove none true k).1 = Except.ok ()
    ∧ (s.remove none true k).2.log = s.log ++ [RQuery.Remove k]
    ∧ (s.remove none true k).2.router
        = s.router ++ [RouterReq.dispatch (Event.Query (RQuery.Remove k))] := by
  refine ⟨?_, ?_, ?_⟩ <;> simp [Storage.remove, hw]

/-- C9 witness: removing key 7, absent from a freshly opened datastore. -/
theorem C9_witness :
    (Storage.openEmpty StorageType.DiskCopies : Storage Nat Nat).lookup 7 = none
    ∧ (Storage.openEmpty StorageType.DiskCopies :
        Storage Nat Nat).wal_session = true
    ∧ (((Storage.openEmpty StorageType.DiskCopies :
          Storage Nat Nat).remove none true 7).1 = Except.ok ()
      ∧ ((Storage.openEmpty StorageType.DiskCopies :
          Storage Nat Nat).remove none true 7).2.log
          = (Storage.openEmpty StorageType.DiskCopies :
              Storage Nat Nat).log ++ [RQuery.Remove 7]
      ∧ ((Storage.openEmpty StorageType.DiskCopies :
          Storage Nat Nat).remove none true 7).2.router
          = (Storage.openEmpty StorageType.DiskCopies :
              Storage Nat Nat).router
            ++ [RouterReq.dispatch (Event.Query (RQuery.Remove 7))]) :=
  ⟨by decide, by decide, C9_remove_absent_key _ 7 (by decide) (by decide)⟩

theorem deliveredFrom_append_unregistered (sink : Nat)
    (pre1 l : List (RouterReq Key Document))
    (h : registersSink pre1 sink = false) :
    deliveredFrom sink false (pre1 ++ l) = deliveredFrom sink false l := by
  induction pre1 with
  | nil => rfl
  | cons r t ih =>
    cases r with
    | register s =>
      have hs : decide (s = sink) = false := by
        simp [registersSink] at h
        simp [h.1]
      have ht : registersSink t sink = false := by
        simp [registersSink] at h ⊢
        exact h.2
      rw [List.cons_append, deliveredFrom, hs, Bool.or_false]
      exact ih ht
    | dispatch e =>
      have ht : registersSink t sink = false := by
        simp [registersSink] at h ⊢
        exact h
      rw [List.cons_append, deliveredFrom]
      simpa using ih ht

theorem deliveredFrom_registered (sink : Nat)
    (l : List (RouterReq Key Document)) :
    deliveredFrom sink true l = dispatchedEvents l := by
  induction l with
  | nil => rfl
  | cons r t ih => cases r <;> simp [deliveredFrom, dispatchedEvents, ih]

/-- C2 counterexample: open in-memory, subscribe sink 0, then insert —
the first (and only) event delivered to sink 0 is the `Query` of the
insert, not its `Subscribed` marker, which is never delivered to it at
all: the source dispatches `Subscribed` before registering the sink. -/
theorem C2_counterexample :
    (deliveredTo 0 c2Router).head? = some (Event.Query (RQuery.Insert 1 2))
    ∧ (deliveredTo 0 c2Router).head? ≠ some (Event.Subscribed 0)
    ∧ Event.Subscribed 0 ∉ deliveredTo 0 c2Router := by
  decide

/-- C2 (amended): a sink admitted via `subscribe` (dispatch and register
both accepted) never receives its own `Subscribed` event — that event is
dispatched before the sink is registered, so it goes only to previously
registered sinks; the events the sink receives are exactly the events
dispatched to the Router after its registration. -/
theorem C2_amended (s : Storage Key Document) (sink : Nat)
    (rest : List (RouterReq Key Document))
    (h : registersSink s.router sink = false) :
    deliveredTo sink ((s.subscribe true none sink).2.router ++ rest)
      = dispatchedEvents rest := by
  have hsub : (s.subscribe true none sink).2.router
      = s.router ++ [RouterReq.dispatch (Event.Subscribed sink),
                     RouterReq.register sink] := by
    simp [Storage.subscribe]
  rw [hsub, List.append_assoc, deliveredTo,
    deliveredFrom_append_unregistered sink s.router _ h]
  simp [deliveredFrom, deliveredFrom_registered]

/-- C2 witness: the amended statement evaluated on the concrete scenario of
the counterexample trace. -/
theorem C2_witness :
    registersSink (Storage.openEmpty StorageType.InMemoryOnly :
        Storage Nat Nat).router 0 = false
    ∧ deliveredTo 0
        (((Storage.openEmpty StorageType.InMemoryOnly :
            Storage Nat Nat).subscribe true none 0).2.router
          ++ [RouterReq.dispatch (Event.Query (RQuery.Insert 1 2))])
        = dispatchedEvents [RouterReq.dispatch (Event.Query (RQuery.Insert 1 2))] :=
  ⟨by decide, C2_amended (Storage.openEmpty StorageType.InMemoryOnly) 0
    [RouterReq.dispatch (Event.Query (RQuery.Insert 1 2))] (by decide)⟩

/-- C3: evaluating the loader of the source at a log whose second line fails
to decode: the source unwraps the decode result
(`bincode::deserialize(&qline.unwrap()).unwrap()`), so the loader panics
(modelled by `none`) instead of terminating normally with the partial state
claimed — while a log whose lines all decode is applied in full. -/
theorem C3_loader_panics_on_bad_line :
    loaderLines (Storage.openEmpty StorageType.DiskCopies : Storage Nat Nat)
        [some (RQuery.Insert 1 10), none] = none
    ∧ loaderLines (Storage.openEmpty StorageType.DiskCopies : Storage Nat Nat)
        [some (RQuery.Insert 1 10)]
        = some (loaderApply (Storage.openEmpty StorageType.DiskCopies)
            (RQuery.Insert 1 10)) := by
  decide

theorem loaderRun_cons [DecidableEq Key] (s : Storage Key Document)
    (q : RQuery Key Document) (rest : List (RQuery Key Document)) :
    loaderRun s (q :: rest) = loaderRun (loaderApply s q) rest := rfl

theorem loaderRun_engine_congr [DecidableEq Key] (a b : Storage Key Document)
    (records : List (RQuery Key Document)) (hab : a.engine = b.engine) :
    (loaderRun a records).engine = (loaderRun b records).engine := by
  induction records generalizing a b with
  | nil => exact hab
  | cons q rest ih =>
    rw [loaderRun_cons, loaderRun_cons]
    apply ih
    cases q <;> simp [loaderApply, hab]

theorem insert_ok_components [DecidableEq Key] (s : Storage Key Document)
    (dk : Bool) (k : Key) (d : Document) (hw : s.wal_session = true) :
    (s.insert none dk k d).2.engine = engineInsert s.engine k d
    ∧ (s.insert none dk k d).2.log = s.log ++ [RQuery.Insert k d] := by
  cases dk <;> simp [Storage.insert, hw]

theorem remove_ok_components [DecidableEq Key] (s : Storage Key Document)
    (dk : Bool) (k : Key) (hw : s.wal_session = true) :
    (s.remove none dk k).2.engine = engineRemove s.engine k
    ∧ (s.remove none dk k).2.log = s.log ++ [RQuery.Remove k] := by
  cases dk <;> simp [Storage.remove, hw]

theorem applyStep_ok_components [DecidableEq Key] (s : Storage Key Document)
    (st : Step Key Document) (hw : s.wal_session = true)
    (hae : st.appendErr = none) :
    (s.applyStep st).2.engine = (loaderApply s st.record).engine
    ∧ (s.applyStep st).2.log = s.log ++ [st.record] := by
  rcases st with ⟨op, ae, dk⟩
  have hae2 : ae = none := hae
  subst hae2
  cases op with
  | insert k d =>
    have hc := insert_ok_components s dk k d hw
    exact ⟨by simpa [Storage.applyStep, Step.record, loaderApply] using hc.1,
           by simpa [Storage.applyStep, Step.record] using hc.2⟩
  | remove k =>
    have hc := remove_ok_components s dk k hw
    exact ⟨by simpa [Storage.applyStep, Step.record, loaderApply] using hc.1,
           by simpa [Storage.applyStep, Step.record] using hc.2⟩

theorem run_log_engine [DecidableEq Key] (s : Storage Key Document)
    (steps : List (Step Key Document)) (hw : s.wal_session = true)
    (h : ∀ st ∈ steps, st.appendErr = none) :
    (s.run steps).log = s.log ++ steps.map Step.record
    ∧ (s.run steps).engine
        = (loaderRun s (steps.map Step.record)).engine := by
  induction steps generalizing s with
  | nil => simp [Storage.run, loaderRun]
  | cons st rest ih =>
    have hae : st.appendErr = none := h st (by simp)
    have hrest : ∀ x ∈ rest, x.appendErr = none := fun x hx =>
      h x (by simp [hx])
    have hwal : (s.applyStep st).2.wal_session = true := by
      rw [applyStep_wal_session]; exact hw
    have hcomp := applyStep_ok_components s st hw hae
    have hih := ih (s.applyStep st).2 hwal hrest
    have hrun : s.run (st :: rest) = ((s.applyStep st).2).run rest := rfl
    constructor
    · rw [hrun, hih.1, hcomp.2, List.map_cons]
      simp
    · rw [hrun, hih.2, List.map_cons, loaderRun_cons]
      exact loaderRun_engine_congr _ _ _ hcomp.1

/-- C4: close/reopen round trip — for any run of live mutations from a
fresh `DiskCopies` datastore in which every WAL append succeeds, replaying
the produced log with the recovery loader (a deterministic function) from a
fresh open reproduces exactly the live in-memory map. -/
theorem C4_close_reopen_roundtrip [DecidableEq Key]
    (steps : List (Step Key Document))
    (h : ∀ st ∈ steps, st.appendErr = none) :
    ((Storage.openEmpty StorageType.DiskCopies :
        Storage Key Document).run steps).engine
      = (loaderRun (Storage.openEmpty StorageType.DiskCopies)
          (((Storage.openEmpty StorageType.DiskCopies :
              Storage Key Document).run steps).log)).engine := by
  have hw : (Storage.openEmpty StorageType.DiskCopies :
      Storage Key Document).wal_session = true := by
    simp [Storage.openEmpty]
  have hle := run_log_engine _ steps hw h
  rw [hle.1, hle.2]
  have h0 : (Storage.openEmpty StorageType.DiskCopies :
      Storage Key Document).log = [] := rfl
  rw [h0, List.nil_append]

/-- C4 witness: a concrete run of three successful mutations round-trips
through its log. -/
theorem C4_witness :
    (∀ st ∈ c4Steps, st.appendErr = none)
    ∧ ((Storage.openEmpty StorageType.DiskCopies :
          Storage Nat Nat).run c4Steps).engine
        = (loaderRun (Storage.openEmpty StorageType.DiskCopies)
            (((Storage.openEmpty StorageType.DiskCopies :
                Storage Nat Nat).run c4Steps).log)).engine :=
  ⟨by decide, C4_close_reopen_roundtrip c4Steps (by decide)⟩

/-- C10: the Router dispatch result is discarded — a write whose append
succeeded returns success even when the dispatch fails and the event is
never admitted to the Router, and the call's result never depends on the
dispatch outcome. -/
theorem C10_dispatch_discarded [DecidableEq Key] (s : Storage Key Document)
    (k : Key) (d : Document) :
    ((s.insert none false k d).1 = Except.ok ()
      ∧ (s.insert none false k d).2.router = s.router)
    ∧ ((s.remove none false k).1 = Except.ok ()
      ∧ (s.remove none false k).2.router = s.router)
    ∧ (∀ ae dk dk2, (s.insert ae dk k d).1 = (s.insert ae dk2 k d).1
      ∧ (s.remove ae dk k).1 = (s.remove ae dk2 k).1) := by
  refine ⟨⟨?_, ?_⟩, ⟨?_, ?_⟩, ?_⟩
  · cases hw : s.wal_session <;> simp [Storage.insert, hw]
  · cases hw : s.wal_session <;> simp [Storage.insert, hw]
  · cases hw : s.wal_session <;> simp [Storage.remove, hw]
  · cases hw : s.wal_session <;> simp [Storage.remove, hw]
  · intro ae dk dk2
    constructor <;> cases hw : s.wal_session <;> cases ae <;>
      cases dk <;> cases dk2 <;> simp [Storage.insert, Storage.remove, hw]

end Darkbird
